import Mathlib

/-!
Verification of the Transaction Ingestion & Double-Entry Derivation Engine
of a small rental-fleet ERP.

The TypeScript source is shallowly embedded: JS strings become `String`
(lists of `Char` underneath), JS numbers become `ℚ` (every value the claims
touch is exact in double precision), mutable accumulation loops become
folds, and functions that JS makes total by returning `NaN`/`0` are total
Lean functions returning `Option`/defaults at the same points the source
does.  `Date.now()` / `Math.random()` fragments of generated ids, which no
claim depends on, are dropped from the ids; the current date used as a date
fallback is passed as an explicit `today` parameter.
-/

/-! ## Generic character/string helpers mirroring the JS built-ins used -/

/-- The whitespace class of JS `trim` / `\s` restricted to the characters
that can occur in this development's inputs. -/
def isWS (c : Char) : Bool :=
  c = ' ' || c = '\t' || c = '\n' || c = '\r' || c = '\x0b' || c = '\x0c'

/-- JS `String.prototype.trim` on the underlying character list. -/
def trimList (cs : List Char) : List Char :=
  ((cs.dropWhile isWS).reverse.dropWhile isWS).reverse

/-- JS `trim` on strings. -/
def trimStr (s : String) : String := ⟨trimList s.data⟩

/-- JS `toLowerCase` (ASCII). -/
def lowerStr (s : String) : String := ⟨s.data.map Char.toLower⟩

/-- Does `pre` start the list `cs`?  (JS `startsWith` on char lists.) -/
def startsW : List Char → List Char → Bool
  | [], _ => true
  | _ :: _, [] => false
  | a :: as, b :: bs => a = b && startsW as bs

/-- Does `needle` occur contiguously inside `hay`?  (JS `includes`.) -/
def occursIn (needle : List Char) : List Char → Bool
  | [] => needle.isEmpty
  | c :: cs => startsW needle (c :: cs) || occursIn needle cs

/-- JS `String.prototype.includes`. -/
def strIncludes (hay sub : String) : Bool := occursIn sub.data hay.data

/-- JS `String.prototype.split` with a one-character separator: always
returns at least one (possibly empty) field. -/
def splitOnChar (sep : Char) : List Char → List (List Char)
  | [] => [[]]
  | c :: cs =>
    let r := splitOnChar sep cs
    if c = sep then [] :: r
    else
      match r with
      | [] => [[c]]
      | h :: t => (c :: h) :: t

/-- Number of occurrences of `c` in `cs` (JS `(line.match(/c/g) || []).length`). -/
def countChar (c : Char) (cs : List Char) : Nat := (cs.filter (fun d => d = c)).length

/-- Is `c` a member of `cs`?  (JS `indexOf(c) > -1`.) -/
def containsChar (c : Char) (cs : List Char) : Bool := cs.any (fun d => d = c)

/-- JS `lastIndexOf(c)`, defaulting to 0 when absent (only compared when the
character is known to be present). -/
def lastIdxD (c : Char) (cs : List Char) : Nat :=
  match cs.reverse.findIdx? (fun d => d = c) with
  | some k => cs.length - 1 - k
  | none => 0

/-- JS `String.prototype.replace(c, d)` with a plain one-character pattern:
replaces only the first occurrence. -/
def replaceFirstChar (a b : Char) : List Char → List Char
  | [] => []
  | c :: cs => if c = a then b :: cs else c :: replaceFirstChar a b cs

/-- Numeric value of a digit string (used below only on digit characters). -/
def digitsVal (cs : List Char) : Nat :=
  cs.foldl (fun a c => a * 10 + (c.toNat - 48)) 0

/-- JS `parseFloat` restricted to the alphabets it is applied to in the
source (digits, `.`, `-` — the residue of the cleaning regexes): parses the
longest valid unsigned decimal prefix into (integer part, fraction part,
fraction length); `none` for `NaN`. -/
def jsParseFloatParts (cs : List Char) : Option (Nat × Nat × Nat) :=
  let ip := cs.takeWhile Char.isDigit
  let rest := cs.drop ip.length
  match rest with
  | '.' :: rest2 =>
    let fp := rest2.takeWhile Char.isDigit
    if ip.isEmpty && fp.isEmpty then none
    else some (digitsVal ip, digitsVal fp, fp.length)
  | _ => if ip.isEmpty then none else some (digitsVal ip, 0, 0)

/-- The rational value of parsed (integer, fraction, fraction-length)
parts; the fraction-free case is split out so that it is a plain numeral. -/
def floatVal (t : Nat × Nat × Nat) : ℚ :=
  if t.2.2 = 0 then (t.1 : ℚ)
  else (t.1 : ℚ) + (t.2.1 : ℚ) / (10 : ℚ) ^ t.2.2

/-- JS `parseFloat` as a rational, `none` for `NaN`. -/
def jsParseFloat (cs : List Char) : Option ℚ :=
  (jsParseFloatParts cs).map floatVal

/-- JS `parseFloat` including an optional leading minus sign. -/
def jsParseFloatSigned (cs : List Char) : Option ℚ :=
  match cs with
  | '-' :: rest => (jsParseFloat rest).map (fun v => -v)
  | _ => jsParseFloat cs

/-! ## Data model (src/types.ts) -/

inductive Category
  | Revenue | Expense | Asset | Liability | Equity
deriving DecidableEq, Repr

/-- Model of `Transaction` of src/types.ts; `category` is the string union there,
`amount` the JS number, `contraAccount` the optional string. -/
structure Transaction where
  id : String
  date : String
  description : String
  category : Category
  amount : ℚ
  reference : String
  contraAccount : Option String
deriving DecidableEq, Repr

/-- Model of `JournalLine` of src/types.ts. -/
structure JournalLine where
  accountId : String
  accountName : String
  debit : ℚ
  credit : ℚ
deriving DecidableEq, Repr

/-- Model of `JournalEntry` of src/types.ts. -/
structure JournalEntry where
  id : String
  date : String
  reference : String
  description : String
  lines : List JournalLine
deriving DecidableEq, Repr

/-! ## Journal Derivation Engine
(`systemJournalEntries` in AccountingView, the `transactions.map` body) -/

/-- The body of the `transactions.map(tx => ...)` in `systemJournalEntries`
(src/components/AccountingView.tsx): derives the double-entry lines for one
transaction. -/
def systemJournalEntry (tx : Transaction) : JournalEntry :=
  let absAmount : ℚ := |tx.amount|
  let lines : List JournalLine :=
    match tx.category with
    | Category.Revenue =>
      [⟨"1002", "Bank BCA", absAmount, 0⟩,
       ⟨"4000", "Rental Revenue", 0, absAmount⟩]
    | Category.Expense =>
      let expenseAccount :=
        if strIncludes (lowerStr tx.description) "maintenance"
            || strIncludes (lowerStr tx.description) "parts" then
          ("5001", "Maintenance Expense")
        else
          ("5002", "Rent Expense (Garage)")
      [⟨expenseAccount.1, expenseAccount.2, absAmount, 0⟩] ++
      (if tx.contraAccount = some "2000" then
        [⟨"2000", "Accounts Payable", 0, absAmount⟩]
       else
        [⟨"1002", "Bank BCA", 0, absAmount⟩])
    | Category.Asset =>
      [⟨"1200", "Motorcycle Fleet Inventory", absAmount, 0⟩,
       ⟨"1002", "Bank BCA", 0, absAmount⟩]
    | _ => []
  { id := tx.id, date := tx.date, reference := tx.reference,
    description := tx.description, lines := lines }

/-- The map of `systemJournalEntries`: it maps the derivation over the transaction list. -/
def systemJournalEntries (txs : List Transaction) : List JournalEntry :=
  txs.map systemJournalEntry

def entryDebitSum (e : JournalEntry) : ℚ := (e.lines.map JournalLine.debit).sum

def entryCreditSum (e : JournalEntry) : ℚ := (e.lines.map JournalLine.credit).sum

/-! ## Report Aggregator (`incomeStatement` in AccountingView) -/

/-- One step of the inner `entry.lines.forEach` of `incomeStatement`:
accumulates (revenue, cogs, opex). -/
def stepLine (acc : ℚ × ℚ × ℚ) (l : JournalLine) : ℚ × ℚ × ℚ :=
  (acc.1 + (if l.accountId = "4000" then l.credit else 0),
   acc.2.1 + (if l.accountId = "5001" then l.debit else 0),
   acc.2.2 + (if l.accountId = "5002" then l.debit else 0))

/-- The nested `forEach` accumulation of `incomeStatement`. -/
def reportTriple (entries : List JournalEntry) : ℚ × ℚ × ℚ :=
  entries.foldl (fun acc e => e.lines.foldl stepLine acc) (0, 0, 0)

structure ReportTotals where
  revenue : ℚ
  cogs : ℚ
  opex : ℚ
  netIncome : ℚ
deriving DecidableEq, Repr

/-- Model of `incomeStatement` (src/components/AccountingView.tsx): folds all lines
of all entries into the income-statement totals.  The source computes this
over the date-sorted concatenation of uploaded and system entries; sorting
permutes entries and cannot change these totals (proved below), so callers
here pass the unsorted concatenation. -/
def incomeStatement (entries : List JournalEntry) : ReportTotals :=
  let t := reportTriple entries
  ⟨t.1, t.2.1, t.2.2, t.1 - t.2.1 - t.2.2⟩

/-! ## Currency Normalizer (`parseCurrency` in TransactionManager) -/

/-- Step 2 of `parseCurrency`: `clean.replace(/^(Rp\.?|IDR|USD)\s?/i, '')`.
The regex alternatives are tried left to right, the greedy optional dot and
the optional single whitespace are consumed when present. -/
def currencyMarkStrip (cs : List Char) : List Char :=
  let ls := cs.map Char.toLower
  let dropN : Nat → List Char := fun n =>
    match cs.drop n with
    | c :: rest => if isWS c then rest else c :: rest
    | [] => []
  if startsW ['r', 'p', '.'] ls then dropN 3
  else if startsW ['r', 'p'] ls then dropN 2
  else if startsW ['i', 'd', 'r'] ls then dropN 3
  else if startsW ['u', 's', 'd'] ls then dropN 3
  else cs

/-- Step 4 of `parseCurrency`: Indonesian vs. US separator disambiguation,
exactly the three-way `indexOf` branch of the source. -/
def sepDisambiguate (cs : List Char) : List Char :=
  if containsChar ',' cs ∧ containsChar '.' cs then
    if lastIdxD ',' cs > lastIdxD '.' cs then
      replaceFirstChar ',' '.' (cs.filter (fun c => c ≠ '.'))
    else
      cs.filter (fun c => c ≠ ',')
  else if containsChar ',' cs then
    let parts := splitOnChar ',' cs
    if 1 < parts.length ∧ (parts.getLastD []).length = 3 then
      cs.filter (fun c => c ≠ ',')
    else
      replaceFirstChar ',' '.' cs
  else if containsChar '.' cs then
    cs.filter (fun c => c ≠ '.')
  else cs

/-- Steps 1–5 of `parseCurrency`: returns the negativity flag and the
cleaned digit/dot character list handed to `parseFloat`. -/
def parseCurrencyCore (s : String) : Bool × List Char :=
  let t := trimList s.data
  let isParentheses :=
    (match t with | '(' :: _ => true | _ => false)
      && (match t.getLast? with | some ')' => true | _ => false)
  let t1 := if isParentheses then (t.drop 1).dropLast else t
  let t2 := currencyMarkStrip t1
  let t3 := t2.filter (fun c => !isWS c)
  let negAndRest : Bool × List Char :=
    match t3 with
    | '-' :: rest => (true, rest)
    | _ => (isParentheses, t3)
  let t5 := sepDisambiguate negAndRest.2
  let t6 := t5.filter (fun c => c.isDigit || c = '.')
  (negAndRest.1, t6)

/-- Model of `parseCurrency` (src/components/AccountingView.tsx, TransactionManager):
robust IDR/US currency parser; `0` on `NaN`, sign from parentheses or a
leading minus. -/
def parseCurrency (s : String) : ℚ :=
  let p := parseCurrencyCore s
  match jsParseFloat p.2 with
  | none => 0
  | some v => if p.1 then -v else v

/-! ## Tabular Reader (`detectDelimiter`, `splitCSVLine`) -/

/-- Model of `detectDelimiter` (src/components/AccountingView.tsx): counts tab, `;`,
`,` in the first line; `,` for inputs of fewer than two lines. -/
def detectDelimiter (text : String) : Char :=
  let lines := splitOnChar '\n' text.data
  if lines.length < 2 then ','
  else
    let line := lines.getD 0 []
    let tabs := countChar '\t' line
    let semicolons := countChar ';' line
    let commas := countChar ',' line
    if tabs > commas ∧ tabs > semicolons then '\t'
    else if semicolons > commas then ';'
    else ','

/-- Modelled from the spec words of claim C6 ("returns whichever is
strictly dominant, defaulting to comma; a single-line or empty input
defaults to `,`"), for comparison with `detectDelimiter` above. -/
def claimedDetectDelimiter (text : String) : Char :=
  let lines := splitOnChar '\n' text.data
  if lines.length < 2 then ','
  else
    let line := lines.getD 0 []
    let tabs := countChar '\t' line
    let semicolons := countChar ';' line
    let commas := countChar ',' line
    if tabs > semicolons ∧ tabs > commas then '\t'
    else if semicolons > tabs ∧ semicolons > commas then ';'
    else if commas > tabs ∧ commas > semicolons then ','
    else ','

/-- The character loop of `splitCSVLine`: quote-aware splitting with
`""`-escapes; fields are trimmed as they are pushed. -/
def splitCSVRec (delim : Char) (cs : List Char) (inQ : Bool) (cur : List Char) :
    List (List Char) :=
  match cs, inQ with
  | [], _ => [trimList cur]
  | '"' :: '"' :: rest2, true => splitCSVRec delim rest2 true (cur ++ ['"'])
  | '"' :: rest, true => splitCSVRec delim rest false cur
  | '"' :: rest, false => splitCSVRec delim rest true cur
  | c :: rest, q =>
    if c = delim && q = false then
      trimList cur :: splitCSVRec delim rest q []
    else
      splitCSVRec delim rest q (cur ++ [c])

/-- Model of `splitCSVLine` (src/components/AccountingView.tsx, TransactionManager). -/
def splitCSVLine (delim : Char) (line : String) : List String :=
  (splitCSVRec delim line.data false []).map (fun f => ⟨f⟩)

/-! ## Transaction Materializer (`parseCSV` in TransactionManager) -/

/-- The six `getIdx` column-role indices; `none` models `findIndex = -1`. -/
structure ColIdx where
  iDate : Option Nat
  iRef : Option Nat
  iDesc : Option Nat
  iDebit : Option Nat
  iCredit : Option Nat
  iAmount : Option Nat
deriving DecidableEq, Repr

/-- The helper `getIdx`: first header containing one of the keywords. -/
def getIdx (headers : List String) (keywords : List String) : Option Nat :=
  headers.findIdx? (fun h => keywords.any (fun k => strIncludes h k))

/-- The six `getIdx` calls of `parseCSV` over the lower-cased headers. -/
def mkColIdx (headers : List String) : ColIdx :=
  { iDate := getIdx headers ["date", "tanggal", "tgl"],
    iRef := getIdx headers ["ref", "nomor", "no.", "code"],
    iDesc := getIdx headers ["description", "deskripsi", "keterangan", "account", "akun"],
    iDebit := getIdx headers ["debit", "masuk"],
    iCredit := getIdx headers ["credit", "kredit", "keluar"],
    iAmount := getIdx headers ["amount", "jumlah", "nilai", "total"] }

/-- The row helper `val(idx)`: the cell at the index, `""` when the role is
absent or the row is too short. -/
def colVal (cols : List String) (idx : Option Nat) : String :=
  match idx with
  | some j => if j < cols.length then cols.getD j "" else ""
  | none => ""

/-- Steps 1–3 of the row loop: date with positional fallback to column 0. -/
def resolveDate (ci : ColIdx) (cols : List String) : String :=
  let d := colVal cols ci.iDate
  if d = "" ∧ 0 < cols.length then cols.getD 0 "" else d

/-- Reference with positional fallback to column 1. -/
def resolveRef (ci : ColIdx) (cols : List String) : String :=
  let r := colVal cols ci.iRef
  if r = "" ∧ 1 < cols.length then cols.getD 1 "" else r

/-- Description with positional fallback to column 2. -/
def resolveDesc (ci : ColIdx) (cols : List String) : String :=
  let d := colVal cols ci.iDesc
  if d = "" ∧ 2 < cols.length then cols.getD 2 "" else d

/-- Step 4 of the row loop: amount/category resolution across the four
layouts (explicit debit/credit columns, single amount column, positional
5-column, positional 4-column).  The pre-loop `let category = 'Revenue'`
default is the final component. -/
def resolveAmountCat (ci : ColIdx) (cols : List String) : ℚ × Category :=
  if ci.iDebit.isSome && ci.iCredit.isSome then
    let debit := parseCurrency (colVal cols ci.iDebit)
    let credit := parseCurrency (colVal cols ci.iCredit)
    if credit > 0 then (credit, Category.Revenue)
    else if debit > 0 then (-debit, Category.Expense)
    else (0, Category.Revenue)
  else if ci.iAmount.isSome then
    (parseCurrency (colVal cols ci.iAmount), Category.Revenue)
  else if 5 ≤ cols.length then
    let debit := parseCurrency (cols.getD 3 "")
    let credit := parseCurrency (cols.getD 4 "")
    if credit > 0 then (credit, Category.Revenue)
    else if debit > 0 then (-debit, Category.Expense)
    else (0, Category.Revenue)
  else if cols.length = 4 then
    (parseCurrency (cols.getD 3 ""), Category.Revenue)
  else (0, Category.Revenue)

/-- Does the description carry an asset-indicating keyword? -/
def hasAssetKw (desc : String) : Bool :=
  let d := lowerStr desc
  strIncludes d "asset" || strIncludes d "aset"
    || strIncludes d "motor" || strIncludes d "unit"

/-- The "Determine Category from Description if Amount is negative" block,
run unconditionally after amount resolution. -/
def refineCategory (amt : ℚ) (desc : String) (cat0 : Category) : Category :=
  if amt < 0 then
    (if hasAssetKw desc then Category.Asset else Category.Expense)
  else if 0 < amt then Category.Revenue
  else cat0

/-- One iteration of the row loop of `parseCSV` (TransactionManager):
`some` a materialized transaction, `none` for a dropped row.  `i` is the
1-based line index used in synthetic ids and references (the `Date.now()`
id component is dropped). -/
def processRow (ci : ColIdx) (today : String) (i : Nat) (cols : List String) :
    Option Transaction :=
  let date := resolveDate ci cols
  let ref := resolveRef ci cols
  let desc := resolveDesc ci cols
  let ac := resolveAmountCat ci cols
  let finalAmount := ac.1
  let category := refineCategory finalAmount desc ac.2
  if finalAmount ≠ 0 ∨ desc ≠ "" then
    some { id := "TX-CSV-" ++ toString i,
           date := if date = "" then today else date,
           reference := if ref = "" then "CSV-" ++ toString i else ref,
           description := if desc = "" then "Imported Transaction" else desc,
           category := category,
           amount := finalAmount,
           contraAccount := some "1002" }
  else none

/-- The non-blank lines of the input (`split('\n').filter(l => l.trim().length > 0)`). -/
def csvLines (text : String) : List String :=
  ((splitOnChar '\n' text.data).map (fun l => (⟨l⟩ : String))).filter
    (fun l => 0 < (trimStr l).length)

/-- Model of `parseCSV` (src/components/AccountingView.tsx, TransactionManager): the
Transaction Materializer.  Detects the delimiter on the raw text, infers
column roles from the first non-blank line, and materializes each further
line through `processRow`. -/
def parseCSVtx (today : String) (text : String) : List Transaction :=
  match csvLines text with
  | [] => []
  | header :: rows =>
    let delim := detectDelimiter text
    let ci := mkColIdx ((splitCSVLine delim header).map lowerStr)
    rows.enum.filterMap
      (fun p => processRow ci today (p.1 + 1) (splitCSVLine delim p.2))

/-! ## Imported CSV "grouped by reference" path
(`parseCSV` in AccountingView) -/

/-- Model of `cleanNumber` of the AccountingView `parseCSV`:
`parseFloat(str.replace(/[^0-9.-]+/g, "")) || 0`. -/
def cleanNumber (s : String) : ℚ :=
  let kept := s.data.filter (fun c => c.isDigit || c = '.' || c = '-')
  (jsParseFloatSigned kept).getD 0

/-- The "Smart Account Mapping" heuristic of the AccountingView `parseCSV`. -/
def importAccountId (desc : String) : String :=
  let d := lowerStr desc
  if strIncludes d "revenue" || strIncludes d "sales" then "4000"
  else if strIncludes d "bank" || strIncludes d "bca" then "1002"
  else if strIncludes d "cash" then "1001"
  else if strIncludes d "maintenance" || strIncludes d "service" then "5001"
  else if strIncludes d "rent" && strIncludes d "expense" then "5002"
  else "9999"

/-- The `tempGroups[ref]` insertion: find the entry for `ref`, creating it on
first sight (JS object insertion order for string keys; the random id
suffix is dropped), and push the line. -/
def addLineToGroup (groups : List JournalEntry) (ref : String) (date : String)
    (line : JournalLine) : List JournalEntry :=
  match groups with
  | [] =>
    [{ id := "CSV-" ++ ref, date := date, reference := ref,
       description := "Imported Transaction", lines := [line] }]
  | e :: es =>
    if e.reference = ref then { e with lines := e.lines ++ [line] } :: es
    else e :: addLineToGroup es ref date line

/-- One iteration of the row loop of the AccountingView `parseCSV`:
blank rows and rows of fewer than 5 comma-fields are skipped, the currency
fields are cleaned, and the line is grouped under its reference. -/
def importRow (groups : List JournalEntry) (row : String) : List JournalEntry :=
  let r := trimStr row
  if r = "" then groups
  else
    let cols := (splitOnChar ',' r.data).map (fun c => (⟨trimList c⟩ : String))
    if cols.length < 5 then groups
    else
      let date := cols.getD 0 ""
      let ref := cols.getD 1 ""
      let descRaw := cols.getD 2 ""
      let debit := cleanNumber (cols.getD 3 "")
      let credit := cleanNumber (cols.getD 4 "")
      let desc : String := ⟨descRaw.data.filter (fun c => c ≠ '"')⟩
      addLineToGroup groups ref date
        ⟨importAccountId desc, desc, debit, credit⟩

/-- Model of `parseCSV` (src/components/AccountingView.tsx): groups raw CSV lines
by reference id into pass-through journal entries (header line skipped). -/
def parseCSVimport (text : String) : List JournalEntry :=
  match splitOnChar '\n' text.data with
  | [] => []
  | _ :: rows => rows.foldl (fun gs r => importRow gs (⟨r⟩ : String)) []

/-! ## Line-level invariants and concrete fixtures -/

/-- "Exactly one of debit and credit is zero" — the per-line XOR invariant
of the spec's §3. -/
def lineXor (l : JournalLine) : Prop :=
  (l.debit = 0 ∧ l.credit ≠ 0) ∨ (l.debit ≠ 0 ∧ l.credit = 0)

instance (l : JournalLine) : Decidable (lineXor l) := by
  unfold lineXor; infer_instance

/-- A zero-amount revenue transaction (C2 counterexample input). -/
def txC2 : Transaction :=
  { id := "TX-0", date := "2024-01-01", description := "zero rental",
    category := Category.Revenue, amount := 0, reference := "R0",
    contraAccount := some "1002" }

/-- A nonzero revenue transaction (witness input). -/
def txC2w : Transaction :=
  { id := "TX-1", date := "2024-01-02", description := "daily rental",
    category := Category.Revenue, amount := 450000, reference := "R1",
    contraAccount := some "1002" }

/-- A maintenance expense paid on account (witness input). -/
def txC8w : Transaction :=
  { id := "TX-2", date := "2024-01-03", description := "Maintenance parts B001",
    category := Category.Expense, amount := -75000, reference := "R2",
    contraAccount := some "2000" }

/-- CSV with explicit debit/credit columns and an asset keyword in the
description of a debit row (C4 counterexample input). -/
def csvC4 : String :=
  "date,ref,description,debit,credit\n2024-01-01,R1,beli motor,100,0"

/-- Same shape as `csvC4` (C4 witness input). -/
def csvC4w : String :=
  "date,ref,description,debit,credit\n2024-03-01,R7,beli unit baru,250,0"

/-- The transaction `parseCSVtx` materializes from `csvC4w`. -/
def txC4w : Transaction :=
  { id := "TX-CSV-1", date := "2024-03-01", description := "beli unit baru",
    category := Category.Asset, amount := -250, reference := "R7",
    contraAccount := some "1002" }

/-- CSV whose single data row is shorter than its debit/credit layout
(C7 counterexample input). -/
def csvC7 : String :=
  "date,ref,description,debit,credit\n2024-01-01,R1,ShortRow"

/-- An expense row imported through the materializer (C9 witness input). -/
def csvC9 : String :=
  "date,ref,description,debit,credit\n2024-01-01,R1,Service fee,100,0"

/-- The transaction `parseCSVtx` materializes from `csvC9`. -/
def txC9w : Transaction :=
  { id := "TX-CSV-1", date := "2024-01-01", description := "Service fee",
    category := Category.Expense, amount := -100, reference := "R1",
    contraAccount := some "1002" }

/-- Grouped-import CSV whose single line maps to account 4000
(C3 counterexample input). -/
def csvC3 : String :=
  "Date,Ref,Description,Debit,Credit\n2024-01-01,R1,Revenue,0,100"

/-- Column configuration with explicit debit/credit columns (C10 witness). -/
def ciC10 : ColIdx :=
  { iDate := some 0, iRef := none, iDesc := none,
    iDebit := some 1, iCredit := some 2, iAmount := none }

/-- A row carrying a positive value in both the debit and the credit
column (C10 witness). -/
def colsC10 : List String := ["2024-01-01", "100", "200"]

/-- A revenue transaction (C1 witness input). -/
def txC1w : Transaction :=
  { id := "TX-3", date := "2024-01-04", description := "weekly rental",
    category := Category.Revenue, amount := 1200000, reference := "R3",
    contraAccount := some "1002" }

/-- The first line `detectDelimiter` counts over. -/
def firstLineOf (text : String) : List Char :=
  (splitOnChar '\n' text.data).getD 0 []

/-! ## Theorems -/

/-- Evaluation rule for `parseCurrency` on inputs whose cleaned form
parses. -/
lemma parseCurrency_eval {s : String} {neg : Bool} {l : List Char}
    {t : Nat × Nat × Nat}
    (h1 : parseCurrencyCore s = (neg, l))
    (h2 : jsParseFloatParts l = some t) :
    parseCurrency s = (if neg then -(floatVal t) else floatVal t) := by
  simp [parseCurrency, jsParseFloat, h1, h2]

/-- Evaluation rule for `parseCurrency` on inputs whose cleaned form is
unparsable (`parseFloat` returns `NaN`). -/
lemma parseCurrency_none {s : String}
    (h : jsParseFloatParts (parseCurrencyCore s).2 = none) :
    parseCurrency s = 0 := by
  simp [parseCurrency, jsParseFloat, h]

/-- Every line a system-derived entry can contain posts `|amount|` on
exactly one side (possibly `0 = |amount|`). -/
lemma mem_system_lines {tx : Transaction} {l : JournalLine}
    (hl : l ∈ (systemJournalEntry tx).lines) :
    (l.debit = |tx.amount| ∧ l.credit = 0) ∨ (l.debit = 0 ∧ l.credit = |tx.amount|) := by
  unfold systemJournalEntry at hl
  cases hc : tx.category <;> rw [hc] at hl <;> simp at hl
  case Revenue => rcases hl with rfl | rfl <;> simp
  case Expense =>
    rcases hl with rfl | hl
    · simp
    · split at hl <;> simp at hl <;> subst hl <;> simp
  case Asset => rcases hl with rfl | rfl <;> simp

/-- C1: for every Transaction whose category is Revenue, Expense or Asset,
the system-derived JournalEntry satisfies `sum(debit) = sum(credit)`. -/
theorem C1_system_entry_balanced (tx : Transaction)
    (h : tx.category = Category.Revenue ∨ tx.category = Category.Expense
      ∨ tx.category = Category.Asset) :
    entryDebitSum (systemJournalEntry tx) = entryCreditSum (systemJournalEntry tx) := by
  unfold entryDebitSum entryCreditSum systemJournalEntry
  rcases h with h | h | h
  · rw [h]; simp
  · rw [h]; simp; split <;> simp
  · rw [h]; simp

/-- C1 witness: the balance invariant at a concrete revenue transaction. -/
theorem C1_witness :
    entryDebitSum (systemJournalEntry txC1w) = entryCreditSum (systemJournalEntry txC1w) :=
  C1_system_entry_balanced txC1w (Or.inl rfl)

/-- C2 counterexample: for the zero-amount revenue transaction `txC2` the
system-derived entry contains a line with `debit = 0` AND `credit = 0`, so
the claimed per-line XOR fails exactly at `amount = 0`. -/
theorem C2_counterexample :
    ¬ ∀ l ∈ (systemJournalEntry txC2).lines, lineXor l := by
  decide

/-- C2 as amended: for every transaction with `amount ≠ 0`, every line of
the system-derived entry satisfies `debit = 0 XOR credit = 0`. -/
theorem C2_line_xor_amended (tx : Transaction) (h : tx.amount ≠ 0) :
    ∀ l ∈ (systemJournalEntry tx).lines, lineXor l := by
  intro l hl
  have ha : |tx.amount| ≠ 0 := abs_ne_zero.mpr h
  rcases mem_system_lines hl with ⟨hd, hc⟩ | ⟨hd, hc⟩
  · exact Or.inr ⟨by rw [hd]; exact ha, hc⟩
  · exact Or.inl ⟨hd, by rw [hc]; exact ha⟩

/-- C2 witness: the amended XOR invariant at a concrete line of a concrete
nonzero transaction. -/
theorem C2_witness : lineXor ⟨"1002", "Bank BCA", 450000, 0⟩ :=
  C2_line_xor_amended txC2w (by norm_num [txC2w])
    ⟨"1002", "Bank BCA", 450000, 0⟩ (by decide)

/-- C8: for every Expense transaction the derived entry is exactly a debit
line of `|amount|` against 5001 (description mentions "maintenance" or
"parts", case-insensitively) or else 5002, followed by a credit line of
`|amount|` against 2000 when `contraAccount = "2000"` and 1002 otherwise. -/
theorem C8_expense_lines (tx : Transaction) (h : tx.category = Category.Expense) :
    (systemJournalEntry tx).lines =
      [ (if strIncludes (lowerStr tx.description) "maintenance"
            || strIncludes (lowerStr tx.description) "parts" then
          (⟨"5001", "Maintenance Expense", |tx.amount|, 0⟩ : JournalLine)
         else
          ⟨"5002", "Rent Expense (Garage)", |tx.amount|, 0⟩),
        (if tx.contraAccount = some "2000" then
          (⟨"2000", "Accounts Payable", 0, |tx.amount|⟩ : JournalLine)
         else
          ⟨"1002", "Bank BCA", 0, |tx.amount|⟩) ] := by
  obtain ⟨i, d, ds, c, a, r, ca⟩ := tx
  simp only at h
  subst h
  simp only [systemJournalEntry]
  split <;> split <;> rfl

/-- C8 witness: the expense posting at a concrete maintenance expense paid
on account. -/
theorem C8_witness :
    (systemJournalEntry txC8w).lines =
      [⟨"5001", "Maintenance Expense", 75000, 0⟩,
       ⟨"2000", "Accounts Payable", 0, 75000⟩] := by
  rw [C8_expense_lines txC8w rfl]
  decide

/-- C5: the Currency Normalizer on the five canonical forms, and `0` on
every input whose cleaned residue is unparsable.  (`parseCurrency` is a
total Lean function, so "never raises" holds by construction.) -/
theorem C5_normalizer :
    parseCurrency "1.500.000,00" = 1500000
    ∧ parseCurrency "1,500,000.00" = 1500000
    ∧ parseCurrency "Rp 50.000" = 50000
    ∧ parseCurrency "(50.000)" = -50000
    ∧ parseCurrency "abc" = 0
    ∧ ∀ s : String, jsParseFloatParts (parseCurrencyCore s).2 = none →
        parseCurrency s = 0 := by
  refine ⟨?_, ?_, ?_, ?_, ?_, fun s h => parseCurrency_none h⟩
  · rw [parseCurrency_eval (by decide : parseCurrencyCore "1.500.000,00"
        = (false, "1500000.00".data))
      (by decide : jsParseFloatParts "1500000.00".data = some (1500000, 0, 2))]
    norm_num [floatVal]
  · rw [parseCurrency_eval (by decide : parseCurrencyCore "1,500,000.00"
        = (false, "1500000.00".data))
      (by decide : jsParseFloatParts "1500000.00".data = some (1500000, 0, 2))]
    norm_num [floatVal]
  · rw [parseCurrency_eval (by decide : parseCurrencyCore "Rp 50.000"
        = (false, "50000".data))
      (by decide : jsParseFloatParts "50000".data = some (50000, 0, 0))]
    norm_num [floatVal]
  · rw [parseCurrency_eval (by decide : parseCurrencyCore "(50.000)"
        = (true, "50000".data))
      (by decide : jsParseFloatParts "50000".data = some (50000, 0, 0))]
    norm_num [floatVal]
  · exact parseCurrency_none (by decide)

/-- C5 witness: a concrete unparsable input normalizes to `0` through the
universally quantified part of `C5_normalizer`. -/
theorem C5_witness : parseCurrency "xyz" = 0 :=
  C5_normalizer.2.2.2.2.2 "xyz" (by decide)

/-- C6 counterexample: on the header line `a;b\tc` (one semicolon, one tab,
no comma) no delimiter is strictly dominant, so the claimed rule defaults
to `,`; the code returns `;`. -/
theorem C6_counterexample :
    detectDelimiter "a;b\tc\nx" = ';'
    ∧ claimedDetectDelimiter "a;b\tc\nx" = ',' := by
  decide

/-- C6 as amended: a strictly dominant delimiter among tab, `;`, `,` in
the first line is always returned, but when semicolons and tabs tie above
commas the result is `;` rather than the comma default; fewer than two
lines default to `,`; and the claimed concrete examples hold. -/
theorem C6_detect_dominance :
    (∀ text : String, 2 ≤ (splitOnChar '\n' text.data).length →
      ((countChar '\t' (firstLineOf text) > countChar ';' (firstLineOf text)
          ∧ countChar '\t' (firstLineOf text) > countChar ',' (firstLineOf text) →
            detectDelimiter text = '\t')
        ∧ (countChar ';' (firstLineOf text) > countChar '\t' (firstLineOf text)
            ∧ countChar ';' (firstLineOf text) > countChar ',' (firstLineOf text) →
              detectDelimiter text = ';')
        ∧ (countChar ',' (firstLineOf text) > countChar '\t' (firstLineOf text)
            ∧ countChar ',' (firstLineOf text) > countChar ';' (firstLineOf text) →
              detectDelimiter text = ',')
        ∧ (countChar '\t' (firstLineOf text) = countChar ';' (firstLineOf text)
            ∧ countChar ';' (firstLineOf text) > countChar ',' (firstLineOf text) →
              detectDelimiter text = ';')))
    ∧ (∀ text : String, (splitOnChar '\n' text.data).length < 2 →
        detectDelimiter text = ',')
    ∧ detectDelimiter "a;b;c\nx" = ';'
    ∧ detectDelimiter "a\tb\tc\nx" = '\t'
    ∧ detectDelimiter "a,b,c\nx" = ','
    ∧ detectDelimiter "a;b;c" = ','
    ∧ detectDelimiter "" = ',' := by
  refine ⟨?_, ?_, by decide, by decide, by decide, by decide, by decide⟩
  · intro text h
    simp only [detectDelimiter, firstLineOf]
    rw [if_neg (by omega)]
    refine ⟨fun hc => ?_, fun hc => ?_, fun hc => ?_, fun hc => ?_⟩
    · rw [if_pos ⟨hc.2, hc.1⟩]
    · rw [if_neg (fun hx => absurd hx.2 (by omega)), if_pos hc.2]
    · rw [if_neg (fun hx => absurd hx.1 (by omega)), if_neg (by omega)]
    · rw [if_neg (fun hx => absurd hx.2 (by omega)), if_pos hc.2]
  · intro text h
    simp only [detectDelimiter]
    rw [if_pos h]

/-- C6 witness: a strictly dominant semicolon at a concrete two-line
input. -/
theorem C6_witness : detectDelimiter "p;q\nr" = ';' :=
  (C6_detect_dominance.1 "p;q\nr" (by decide)).2.1 (by decide)

/-- A materialized row fixes `amount`, `category`, `description` and
`contraAccount` as the row loop computes them. -/
lemma processRow_fields {ci : ColIdx} {today : String} {i : Nat}
    {cols : List String} {tx : Transaction}
    (h : processRow ci today i cols = some tx) :
    tx.amount = (resolveAmountCat ci cols).1
    ∧ tx.category = refineCategory (resolveAmountCat ci cols).1
        (resolveDesc ci cols) (resolveAmountCat ci cols).2
    ∧ tx.description = (if resolveDesc ci cols = "" then "Imported Transaction"
        else resolveDesc ci cols)
    ∧ tx.contraAccount = some "1002" := by
  simp only [processRow] at h
  split at h
  · injection h with h
    subst h
    exact ⟨rfl, rfl, rfl, rfl⟩
  · exact absurd h (by simp)

/-- Every transaction of `parseCSVtx` comes out of some `processRow`
call. -/
lemma mem_parseCSVtx {today text : String} {tx : Transaction}
    (h : tx ∈ parseCSVtx today text) :
    ∃ ci i cols, processRow ci today i cols = some tx := by
  unfold parseCSVtx at h
  split at h
  · simp at h
  · simp only [List.mem_filterMap] at h
    obtain ⟨p, _, hp⟩ := h
    exact ⟨_, _, _, hp⟩

/-- C4 counterexample: in `csvC4` the debit and credit columns are present
(indices 3 and 4) and the row carries `debit = 100 > 0`, so the claim
demands category Expense; the materializer instead applies the keyword
override ("motor") and yields Asset. -/
theorem C4_counterexample :
    (mkColIdx ((splitCSVLine (detectDelimiter csvC4)
        "date,ref,description,debit,credit").map lowerStr)).iDebit = some 3
    ∧ (mkColIdx ((splitCSVLine (detectDelimiter csvC4)
        "date,ref,description,debit,credit").map lowerStr)).iCredit = some 4
    ∧ (parseCSVtx "2024-02-02" csvC4).map
        (fun tx => (tx.amount, tx.category)) = [(-100, Category.Asset)] := by
  decide

/-- C4 as amended: the keyword refinement applies to every materialized
row regardless of layout — a negative resolved amount always yields
Expense, or Asset when the stored description carries an asset keyword,
and a positive resolved amount always yields Revenue, even for rows
resolved through explicit debit/credit columns. -/
theorem C4_refine_all_rows (today text : String) (tx : Transaction)
    (h : tx ∈ parseCSVtx today text) :
    (tx.amount < 0 → tx.category =
      (if hasAssetKw tx.description then Category.Asset else Category.Expense))
    ∧ (0 < tx.amount → tx.category = Category.Revenue) := by
  obtain ⟨ci, i, cols, hp⟩ := mem_parseCSVtx h
  obtain ⟨hamt, hcat, hdesc, -⟩ := processRow_fields hp
  constructor
  · intro hneg
    rw [hamt] at hneg
    rw [hcat, refineCategory, if_pos hneg]
    by_cases hd : resolveDesc ci cols = ""
    · rw [hdesc, if_pos hd, hd]
      decide
    · rw [hdesc, if_neg hd]
  · intro hpos
    rw [hamt] at hpos
    rw [hcat, refineCategory, if_neg (by linarith), if_pos hpos]

/-- C4 witness: the amended refinement rule at the concrete asset-keyword
debit row of `csvC4w`. -/
theorem C4_witness :
    txC4w.category =
      (if hasAssetKw txC4w.description then Category.Asset else Category.Expense) :=
  (C4_refine_all_rows "2024-02-02" csvC4w txC4w (by decide)).1 (by decide)

/-- C7 counterexample: the data row of `csvC7` has 3 columns, fewer than
the 5 its explicit debit/credit layout uses, yet the materializer emits
one zero-amount Revenue transaction for it rather than zero transactions
(and the source maintains no skipped-row counter at all). -/
theorem C7_counterexample :
    parseCSVtx "2024-02-02" csvC7 =
      [{ id := "TX-CSV-1", date := "2024-01-01", description := "ShortRow",
         category := Category.Revenue, amount := 0, reference := "R1",
         contraAccount := some "1002" }] := by
  decide

/-- C7 as amended: a row never throws (the materializer is a total
function) and produces zero transactions exactly when both its resolved
amount is zero and its resolved description is empty; a short row with a
non-empty description therefore yields a zero-amount transaction instead
of being skipped. -/
theorem C7_skip_policy (ci : ColIdx) (today : String) (i : Nat)
    (cols : List String) :
    processRow ci today i cols = none ↔
      ((resolveAmountCat ci cols).1 = 0 ∧ resolveDesc ci cols = "") := by
  simp only [processRow]
  split
  · rename_i hc
    simp only [reduceCtorEq, false_iff]
    intro hx
    rcases hc with hc | hc
    · exact hc hx.1
    · exact hc hx.2
  · rename_i hc
    push_neg at hc
    simp [hc.1, hc.2]

/-- When the contra account is not Accounts Payable, no line of the
system-derived entry carries account 2000. -/
lemma system_lines_no_AP {tx : Transaction}
    (hca : ¬ tx.contraAccount = some "2000") :
    ∀ l ∈ (systemJournalEntry tx).lines, l.accountId ≠ "2000" := by
  intro l hl
  unfold systemJournalEntry at hl
  cases hc : tx.category <;> rw [hc] at hl <;> simp at hl
  case Revenue =>
    rcases hl with rfl | rfl
    · show ("1002" : String) ≠ "2000"
      decide
    · show ("4000" : String) ≠ "2000"
      decide
  case Expense =>
    rcases hl with rfl | hl
    · split
      · show ("5001" : String) ≠ "2000"
        decide
      · show ("5002" : String) ≠ "2000"
        decide
    · rw [if_neg hca] at hl
      simp at hl
      subst hl
      show ("1002" : String) ≠ "2000"
      decide
  case Asset =>
    rcases hl with rfl | rfl
    · show ("1200" : String) ≠ "2000"
      decide
    · show ("1002" : String) ≠ "2000"
      decide

/-- C9: every transaction materialized by the CSV import path carries
`contraAccount = "1002"`, and consequently none of its system-derived
journal lines can hit Accounts Payable (2000). -/
theorem C9_import_contra (today text : String) (tx : Transaction)
    (h : tx ∈ parseCSVtx today text) :
    tx.contraAccount = some "1002"
    ∧ ∀ l ∈ (systemJournalEntry tx).lines, l.accountId ≠ "2000" := by
  obtain ⟨ci, i, cols, hp⟩ := mem_parseCSVtx h
  have hca := (processRow_fields hp).2.2.2
  exact ⟨hca, system_lines_no_AP (by rw [hca]; decide)⟩

/-- C9 witness: the concrete expense row of `csvC9` materializes with
contra account 1002. -/
theorem C9_witness : txC9w.contraAccount = some "1002" :=
  (C9_import_contra "2024-02-02" csvC9 txC9w (by decide)).1

/-- C10: when both debit and credit columns are present and the row has a
positive value in both, the credit takes precedence: the materialized
amount is `+credit` with category Revenue, independently of the debit
value. -/
theorem C10_credit_precedence (ci : ColIdx) (today : String) (i : Nat)
    (cols : List String)
    (h1 : ci.iDebit.isSome = true) (h2 : ci.iCredit.isSome = true)
    (_h3 : 0 < parseCurrency (colVal cols ci.iDebit))
    (h4 : 0 < parseCurrency (colVal cols ci.iCredit)) :
    (processRow ci today i cols).map (fun tx => (tx.amount, tx.category))
      = some (parseCurrency (colVal cols ci.iCredit), Category.Revenue) := by
  have hac : resolveAmountCat ci cols
      = (parseCurrency (colVal cols ci.iCredit), Category.Revenue) := by
    unfold resolveAmountCat
    rw [if_pos (by rw [h1, h2]; rfl), if_pos h4]
  have hac1 : (resolveAmountCat ci cols).1 = parseCurrency (colVal cols ci.iCredit) := by
    rw [hac]
  have hac2 : (resolveAmountCat ci cols).2 = Category.Revenue := by
    rw [hac]
  have hnotlt : ¬ parseCurrency (colVal cols ci.iCredit) < 0 :=
    not_lt.mpr (le_of_lt h4)
  simp only [processRow]
  rw [hac1, hac2]
  rw [if_pos (Or.inl (ne_of_gt h4))]
  simp [refineCategory, hnotlt, h4]

/-- C10 witness: `credit = 200` wins over `debit = 100` at a concrete row
with both columns present. -/
theorem C10_witness :
    (processRow ciC10 "2024-02-02" 1 colsC10).map
        (fun tx => (tx.amount, tx.category))
      = some (parseCurrency (colVal colsC10 ciC10.iCredit), Category.Revenue) :=
  C10_credit_precedence ciC10 "2024-02-02" 1 colsC10 rfl rfl (by decide) (by decide)

/-- Folding lines from an arbitrary accumulator shifts the result by the
accumulator, componentwise. -/
lemma stepLine_shift (ls : List JournalLine) (acc : ℚ × ℚ × ℚ) :
    ls.foldl stepLine acc
      = (acc.1 + (ls.foldl stepLine (0, 0, 0)).1,
         acc.2.1 + (ls.foldl stepLine (0, 0, 0)).2.1,
         acc.2.2 + (ls.foldl stepLine (0, 0, 0)).2.2) := by
  induction ls generalizing acc with
  | nil => simp
  | cons l ls ih =>
    simp only [List.foldl_cons]
    rw [ih (stepLine acc l), ih (stepLine (0, 0, 0) l)]
    simp only [stepLine, Prod.mk.injEq]
    refine ⟨by ring, by ring, by ring⟩

/-- Folding entries from an arbitrary accumulator shifts the result by the
accumulator, componentwise. -/
lemma entriesFold_shift (es : List JournalEntry) (acc : ℚ × ℚ × ℚ) :
    es.foldl (fun a e => e.lines.foldl stepLine a) acc
      = (acc.1 + (reportTriple es).1,
         acc.2.1 + (reportTriple es).2.1,
         acc.2.2 + (reportTriple es).2.2) := by
  induction es generalizing acc with
  | nil => simp [reportTriple]
  | cons e es ih =>
    simp only [List.foldl_cons, reportTriple]
    rw [ih (e.lines.foldl stepLine acc), ih (e.lines.foldl stepLine (0, 0, 0))]
    rw [stepLine_shift e.lines acc, stepLine_shift e.lines (0, 0, 0)]
    simp only [Prod.mk.injEq]
    refine ⟨by ring, by ring, by ring⟩

/-- C3 counterexample: the grouped-import CSV `csvC3` yields an imported
entry whose single line carries account code 4000 with credit 100; folding
it together with an empty system ledger reports revenue 100, while the
system ledger alone reports 0 — so the income-statement totals are NOT
unaffected by imported lines carrying those account codes (nor does any
distinguishing tag exist on `JournalEntry`). -/
theorem C3_counterexample :
    (incomeStatement (parseCSVimport csvC3 ++ systemJournalEntries [])).revenue = 100
    ∧ (incomeStatement (systemJournalEntries ([] : List Transaction))).revenue = 0 := by
  have himp : parseCSVimport csvC3
      = [{ id := "CSV-R1", date := "2024-01-01", reference := "R1",
           description := "Imported Transaction",
           lines := [{ accountId := "4000", accountName := "Revenue",
                       debit := 0, credit := 100 }] }] := by
    decide
  constructor
  · rw [himp]
    norm_num [systemJournalEntries, incomeStatement, reportTriple, stepLine]
  · norm_num [systemJournalEntries, incomeStatement, reportTriple]

/-- C3 as amended: imported grouped-by-reference entries carry no
distinguishing tag and the Report Aggregator folds their lines into the
very same revenue/cogs/opex buckets as the system-derived entries — the
totals over the combined ledger are the componentwise sums of the totals
of the imported and the system parts. -/
theorem C3_aggregation_additive (text : String) (txs : List Transaction) :
    (incomeStatement (parseCSVimport text ++ systemJournalEntries txs)).revenue
      = (incomeStatement (parseCSVimport text)).revenue
        + (incomeStatement (systemJournalEntries txs)).revenue
    ∧ (incomeStatement (parseCSVimport text ++ systemJournalEntries txs)).cogs
      = (incomeStatement (parseCSVimport text)).cogs
        + (incomeStatement (systemJournalEntries txs)).cogs
    ∧ (incomeStatement (parseCSVimport text ++ systemJournalEntries txs)).opex
      = (incomeStatement (parseCSVimport text)).opex
        + (incomeStatement (systemJournalEntries txs)).opex
    ∧ (incomeStatement (parseCSVimport text ++ systemJournalEntries txs)).netIncome
      = (incomeStatement (parseCSVimport text)).netIncome
        + (incomeStatement (systemJournalEntries txs)).netIncome := by
  have h : reportTriple (parseCSVimport text ++ systemJournalEntries txs)
      = ((reportTriple (parseCSVimport text)).1
           + (reportTriple (systemJournalEntries txs)).1,
         (reportTriple (parseCSVimport text)).2.1
           + (reportTriple (systemJournalEntries txs)).2.1,
         (reportTriple (parseCSVimport text)).2.2
           + (reportTriple (systemJournalEntries txs)).2.2) := by
    rw [reportTriple, List.foldl_append]
    exact entriesFold_shift _ _
  simp only [incomeStatement, h]
  refine ⟨trivial, trivial, trivial, by ring⟩
